import Mathlib

/-!
# Verification of the scd4x driver core

Shallow embedding of the scd4x sensor-driver library (checksum, word
conversions, command descriptors, bus-transaction sequences, and the
type-state sensor handle) together with theorems settling the frozen
claims about it.

Machine integers are embedded as `Nat` with explicit reductions modulo
`2^8`/`2^16` where the Rust code relies on fixed-width wrap-around.  The
`f32` conversions of `conversion.rs` are embedded over `ℚ`: every
arithmetic step those functions perform is exact in IEEE binary32 on the
relevant ranges (products below `2^24`, divisions by powers of two, sums
of scaled integers below `2^24`), so the rational model coincides with
the `f32` computation bit-for-bit there; where it does not (general
float inputs to the truncating casts), the theorems pick inputs on which
the `f32` computation is exact.
-/

set_option maxRecDepth 100000

set_option maxHeartbeats 1000000

namespace Scd4x

/-! ## Checksum — `src/checksum.rs` -/

/-- Polynomial for CRC computation (`CRC8_POLYNOMIAL`). -/
def CRC8_POLYNOMIAL : Nat := 0x31

/-- Initial value for CRC computation (`CRC8_INIT`). -/
def CRC8_INIT : Nat := 0xff

/-- One iteration of the inner loop of `compute`: on a `u8` register,
`if crc & 0x80 != 0 { crc = (crc << 1) ^ POLY } else { crc = crc << 1 }`.
The `u8` shift discards the top bit, embedded as `% 256`. -/
def crcShift (crc : Nat) : Nat :=
  if crc &&& 0x80 ≠ 0 then ((crc <<< 1) % 256) ^^^ CRC8_POLYNOMIAL
  else (crc <<< 1) % 256

/-- The inner `for _ in 0..8` loop of `compute`. -/
def crcShiftIter : Nat → Nat → Nat
  | 0, crc => crc
  | n + 1, crc => crcShiftIter n (crcShift crc)

/-- The body of the outer `for datum in data` loop of `compute`:
`crc ^= datum` followed by eight shift iterations. -/
def crcProcessByte (crc datum : Nat) : Nat :=
  crcShiftIter 8 (crc ^^^ datum)

/-- `compute` from `src/checksum.rs`: fold the per-byte step over the
input starting from `CRC8_INIT`.  The Rust function takes `[u8; 2]`;
the embedding takes the byte list `[b0, b1]`. -/
def compute (data : List Nat) : Nat :=
  data.foldl crcProcessByte CRC8_INIT

/-- `Error` from `src/error.rs`.  The transport error kind
(`embedded_hal::i2c::ErrorKind`) is opaque to this library and is
embedded as a `Nat` tag. -/
inductive Error
  | ChecksumMismatch (actual expected : Nat)
  | I2c (kind : Nat)
deriving DecidableEq

/-- `verify` from `src/checksum.rs`. -/
def verify (data : List Nat) (expected : Nat) : Except Error Unit :=
  let actual := compute data
  if actual = expected then Except.ok ()
  else Except.error (Error.ChecksumMismatch actual expected)

/-! ## Word decoding — `src/util.rs` -/

/-- `buffer_to_word` from `src/util.rs`: assemble the big-endian word,
then verify the checksum, propagating its error. -/
def buffer_to_word (byte0 byte1 byte2 : Nat) : Except Error Nat :=
  let word := (byte0 <<< 8) + byte1
  match verify [byte0, byte1] byte2 with
  | Except.ok _ => Except.ok word
  | Except.error e => Except.error e

/-- `buffer_to_three_words` from `src/util.rs`: decode the three 3-byte
groups of a 9-byte buffer in order, propagating the first error.  The
Rust function takes `[u8; 9]`; the embedding takes the nine bytes. -/
def buffer_to_three_words (b0 b1 b2 b3 b4 b5 b6 b7 b8 : Nat) :
    Except Error (Nat × Nat × Nat) :=
  match buffer_to_word b0 b1 b2 with
  | Except.error e => Except.error e
  | Except.ok word0 =>
    match buffer_to_word b3 b4 b5 with
    | Except.error e => Except.error e
    | Except.ok word1 =>
      match buffer_to_word b6 b7 b8 with
      | Except.error e => Except.error e
      | Except.ok word2 => Except.ok (word0, word1, word2)

/-! ## Spec-side CRC-8 model

Written from the specification's words only ("CRC-8 with polynomial
0x31, initial register value 0xFF, no input/output reflection, no final
XOR.  Process each of the 2 bytes: XOR into the running CRC register,
then for 8 iterations: if the top bit is set, shift left and XOR with
the polynomial; else shift left"), to be compared with `compute`. -/

/-- One spec-side iteration on an 8-bit register: if the top bit is set
(`128 ≤ r`), shift left and XOR with the polynomial, else shift left. -/
def crc8SpecRound (r : Nat) : Nat :=
  if 128 ≤ r then ((2 * r) % 256) ^^^ 0x31 else (2 * r) % 256

/-- Spec-side CRC-8: start from 0xFF; per byte, XOR it in and run eight
rounds; no reflection, no final XOR. -/
def crc8Spec (data : List Nat) : Nat :=
  data.foldl (fun r b => crc8SpecRound^[8] (r ^^^ b)) 0xff

lemma crcShift_eq_spec : ∀ r < 256, crcShift r = crc8SpecRound r ∧ crcShift r < 256 := by
  decide

lemma crcShiftIter_eq_spec (n : Nat) :
    ∀ r, r < 256 → crcShiftIter n r = crc8SpecRound^[n] r ∧ crcShiftIter n r < 256 := by
  induction n with
  | zero => exact fun r h => ⟨rfl, h⟩
  | succ n ih =>
    intro r h
    obtain ⟨he, hl⟩ := crcShift_eq_spec r h
    obtain ⟨ihe, ihl⟩ := ih (crcShift r) hl
    refine ⟨?_, ?_⟩
    · rw [Function.iterate_succ_apply, show crcShiftIter (n + 1) r = crcShiftIter n (crcShift r) from rfl, ihe, he]
    · exact ihl

lemma xor_lt_256 {a b : Nat} (ha : a < 256) (hb : b < 256) : a ^^^ b < 256 := by
  have : a ^^^ b < 2 ^ 8 := Nat.xor_lt_two_pow (by norm_num [ha]) (by norm_num [hb])
  simpa using this

lemma crcProcessByte_eq_spec (crc b : Nat) (hc : crc < 256) (hb : b < 256) :
    crcProcessByte crc b = crc8SpecRound^[8] (crc ^^^ b) ∧ crcProcessByte crc b < 256 :=
  crcShiftIter_eq_spec 8 (crc ^^^ b) (xor_lt_256 hc hb)

/-- Claim C2: for every 2-byte input, `compute` implements CRC-8 with
polynomial 0x31, initial register 0xFF, no reflection and no final XOR
(per byte: XOR in the byte, then 8 shift-and-conditionally-XOR rounds),
and in particular `compute [0xbe, 0xef] = 0x92` and
`compute [0xff, 0xff] = 0xac`. -/
theorem compute_implements_crc8_spec (b0 b1 : Nat) (h0 : b0 < 256) (h1 : b1 < 256) :
    compute [b0, b1] = crc8Spec [b0, b1] ∧
    compute [0xbe, 0xef] = 0x92 ∧ compute [0xff, 0xff] = 0xac := by
  refine ⟨?_, by decide, by decide⟩
  obtain ⟨he0, hl0⟩ := crcProcessByte_eq_spec 0xff b0 (by norm_num) h0
  obtain ⟨he1, _⟩ := crcProcessByte_eq_spec (crcProcessByte 0xff b0) b1 hl0 h1
  simp only [compute, crc8Spec, CRC8_INIT, List.foldl]
  rw [he1, he0]

/-- Witness for C2 at the concrete input `[0xbe, 0xef]`. -/
theorem compute_implements_crc8_spec_witness :
    compute [0xbe, 0xef] = crc8Spec [0xbe, 0xef] ∧
    compute [0xbe, 0xef] = 0x92 ∧ compute [0xff, 0xff] = 0xac :=
  ⟨(compute_implements_crc8_spec 0xbe 0xef (by decide) (by decide)).1,
   (compute_implements_crc8_spec 0xbe 0xef (by decide) (by decide)).2⟩

lemma verify_eq_if (data : List Nat) (expected : Nat) :
    verify data expected =
      (if compute data = expected then Except.ok ()
       else Except.error (Error.ChecksumMismatch (compute data) expected)) := rfl

/-- Claim C3: `verify` succeeds iff `compute` matches the expected byte,
otherwise fails with `ChecksumMismatch` carrying the actual and expected
checksums; consequently `verify bytes (compute bytes)` succeeds and
`verify bytes (compute bytes ^^^ 0xFF)` fails with `ChecksumMismatch`. -/
theorem verify_iff_checksum_matches (b0 b1 expected : Nat) :
    verify [b0, b1] expected =
      (if compute [b0, b1] = expected then Except.ok ()
       else Except.error (Error.ChecksumMismatch (compute [b0, b1]) expected)) ∧
    (verify [b0, b1] expected = Except.ok () ↔ compute [b0, b1] = expected) ∧
    verify [b0, b1] (compute [b0, b1]) = Except.ok () ∧
    verify [b0, b1] (compute [b0, b1] ^^^ 0xff) =
      Except.error
        (Error.ChecksumMismatch (compute [b0, b1]) (compute [b0, b1] ^^^ 0xff)) := by
  have hne : compute [b0, b1] ≠ compute [b0, b1] ^^^ 0xff := by
    intro h
    have h' : compute [b0, b1] ^^^ 0 = compute [b0, b1] ^^^ 0xff := by
      rw [Nat.xor_zero]; exact h
    exact absurd (Nat.xor_right_inj.mp h') (by norm_num)
  refine ⟨verify_eq_if [b0, b1] expected, ?_, ?_, ?_⟩
  · rw [verify_eq_if]
    by_cases h : compute [b0, b1] = expected
    · rw [if_pos h]; simp [h]
    · rw [if_neg h]; simp [h]
  · rw [verify_eq_if, if_pos rfl]
  · rw [verify_eq_if, if_neg hne]

lemma buffer_to_word_ok {b0 b1 b2 : Nat} (h : compute [b0, b1] = b2) :
    buffer_to_word b0 b1 b2 = Except.ok ((b0 <<< 8) + b1) := by
  unfold buffer_to_word
  rw [verify_eq_if, if_pos h]

lemma buffer_to_word_error {b0 b1 b2 : Nat} (h : compute [b0, b1] ≠ b2) :
    buffer_to_word b0 b1 b2 =
      Except.error (Error.ChecksumMismatch (compute [b0, b1]) b2) := by
  unfold buffer_to_word
  rw [verify_eq_if, if_neg h]

/-- Claim C4: decoding a 9-byte buffer verifies each 3-byte group's
checksum independently and returns the three big-endian words in order
iff all three verify; otherwise the whole read fails with a
`ChecksumMismatch` error and no partial word list is returned. -/
theorem buffer_to_three_words_all_or_nothing (b0 b1 b2 b3 b4 b5 b6 b7 b8 : Nat) :
    (compute [b0, b1] = b2 ∧ compute [b3, b4] = b5 ∧ compute [b6, b7] = b8 →
      buffer_to_three_words b0 b1 b2 b3 b4 b5 b6 b7 b8 =
        Except.ok ((b0 <<< 8) + b1, (b3 <<< 8) + b4, (b6 <<< 8) + b7)) ∧
    (¬ (compute [b0, b1] = b2 ∧ compute [b3, b4] = b5 ∧ compute [b6, b7] = b8) →
      ∃ a e, buffer_to_three_words b0 b1 b2 b3 b4 b5 b6 b7 b8 =
        Except.error (Error.ChecksumMismatch a e)) := by
  constructor
  · rintro ⟨h0, h1, h2⟩
    unfold buffer_to_three_words
    rw [buffer_to_word_ok h0, buffer_to_word_ok h1, buffer_to_word_ok h2]
  · intro h
    by_cases h0 : compute [b0, b1] = b2
    · by_cases h1 : compute [b3, b4] = b5
      · have h2 : compute [b6, b7] ≠ b8 := fun h2 => h ⟨h0, h1, h2⟩
        refine ⟨compute [b6, b7], b8, ?_⟩
        unfold buffer_to_three_words
        rw [buffer_to_word_ok h0, buffer_to_word_ok h1, buffer_to_word_error h2]
      · refine ⟨compute [b3, b4], b5, ?_⟩
        unfold buffer_to_three_words
        rw [buffer_to_word_ok h0, buffer_to_word_error h1]
    · refine ⟨compute [b0, b1], b2, ?_⟩
      unfold buffer_to_three_words
      rw [buffer_to_word_error h0]

/-- Witness for C4: a fully valid buffer decodes to its three words, and
corrupting the first group's checksum yields a `ChecksumMismatch`. -/
theorem buffer_to_three_words_all_or_nothing_witness :
    buffer_to_three_words 0xbe 0xef 0x92 0xf8 0x96 0x31 0x9f 0x07 0xc2 =
      Except.ok (0xbeef, 0xf896, 0x9f07) ∧
    ∃ a e, buffer_to_three_words 0xbe 0xef 0x93 0xf8 0x96 0x31 0x9f 0x07 0xc2 =
      Except.error (Error.ChecksumMismatch a e) :=
  ⟨by
    have h := (buffer_to_three_words_all_or_nothing
      0xbe 0xef 0x92 0xf8 0x96 0x31 0x9f 0x07 0xc2).1 (by refine ⟨?_, ?_, ?_⟩ <;> decide)
    simpa using h,
   (buffer_to_three_words_all_or_nothing
      0xbe 0xef 0x93 0xf8 0x96 0x31 0x9f 0x07 0xc2).2 (by decide)⟩

/-! ## Conversions — `src/conversion.rs`

The `f32` arithmetic of these functions is exact on the ranges they are
used at (see the file header), so they are embedded over `ℚ`.  The
quantity wrappers of `src/sample.rs` (`co2_from_ppm`,
`temperature_from_celsius`, `humidity_from_number`, `ppm_from_co2`,
`celsius_from_temperature`) are identities in the default (non-`uom`)
build and are inlined. -/

/-- Rust saturating float-to-`u16` cast (`as u16`): truncate toward
zero, clamping to `[0, 0xffff]`. -/
def u16_of_rat (q : ℚ) : Nat :=
  if q < 0 then 0 else min 65535 ⌊q⌋.toNat

/-- Rust `as i16` reinterpretation of a `u16` value. -/
def i16_of_u16 (n : Nat) : ℤ :=
  if n < 32768 then (n : ℤ) else (n : ℤ) - 65536

/-- `word_to_temperature_offset` from `src/conversion.rs`:
`(175 * word) / 65536` degrees Celsius. -/
def word_to_temperature_offset (word : Nat) : ℚ :=
  (175 * word) / 65536

/-- `temperature_offset_to_word` from `src/conversion.rs`:
`((65536 * celsius) / 175) as u16` — a truncating cast. -/
def temperature_offset_to_word (celsius : ℚ) : Nat :=
  u16_of_rat ((65536 * celsius) / 175)

/-- `word_to_temperature` from `src/conversion.rs`:
`-45 + (175 * word) / 65536` degrees Celsius. -/
def word_to_temperature (word : Nat) : ℚ :=
  -45 + (175 * word) / 65536

/-- `word_to_humidity` from `src/conversion.rs`:
`(100 * word) / 65536` percent. -/
def word_to_humidity (word : Nat) : ℚ :=
  (100 * word) / 65536

/-- `co2_to_word` from `src/conversion.rs`: `ppm_from_co2(co2) as u16`. -/
def co2_to_word (co2 : ℚ) : Nat :=
  u16_of_rat co2

/-- `signed_word_to_co2` from `src/conversion.rs`: `f32::from(word)` on
an `i16`, exact in `f32`. -/
def signed_word_to_co2 (word : ℤ) : ℚ :=
  word

/-- `Sample` from `src/sample.rs`. -/
structure Sample where
  co2 : ℚ
  temperature : ℚ
  humidity : ℚ
deriving DecidableEq

/-- `words_to_sample` from `src/conversion.rs`. -/
def words_to_sample (word0 word1 word2 : Nat) : Sample :=
  { co2 := (word0 : ℚ)
    temperature := word_to_temperature word1
    humidity := word_to_humidity word2 }

/-- The inverse temperature-offset conversion as the specification words
it: `word = round(65536*celsius/175)`, rounding to the nearest integer.
Written from the spec only, to be compared with
`temperature_offset_to_word`. -/
def temperature_offset_to_word_specRounded (celsius : ℚ) : ℤ :=
  round ((65536 * celsius) / 175)

/-- Counterexample for claim C5: at 175/131072 °C the scaled value is
exactly 1/2; the code truncates it to word 0 while the claimed rounding
gives word 1. -/
theorem temperature_offset_to_word_truncates_not_rounds :
    temperature_offset_to_word (175 / 131072) = 0 ∧
    temperature_offset_to_word_specRounded (175 / 131072) = 1 ∧
    (temperature_offset_to_word (175 / 131072) : ℤ) ≠
      temperature_offset_to_word_specRounded (175 / 131072) := by
  have h : ((65536 : ℚ) * (175 / 131072)) / 175 = 1 / 2 := by norm_num
  refine ⟨?_, ?_, ?_⟩
  · rw [temperature_offset_to_word, h]
    rw [u16_of_rat, if_neg (by norm_num)]
    norm_num
  · rw [temperature_offset_to_word_specRounded, h]
    rw [round_eq]
    norm_num
  · rw [temperature_offset_to_word, temperature_offset_to_word_specRounded, h]
    rw [u16_of_rat, if_neg (by norm_num), round_eq]
    norm_num

lemma u16_of_rat_natCast {n : Nat} (h : n ≤ 65535) : u16_of_rat (n : ℚ) = n := by
  rw [u16_of_rat, if_neg (not_lt.mpr (by positivity))]
  rw [Int.floor_natCast, Int.toNat_natCast]
  exact min_eq_right h

/-- Claim C5 as amended: `word_to_temperature_offset` is
`175*word/65536`; the inverse conversion truncates `65536*celsius/175`
toward zero (rather than rounding to nearest), and on words the round
trip is exact. -/
theorem temperature_offset_conversions (w : Nat) (hw : w < 65536) (c : ℚ)
    (hc0 : 0 ≤ c) (hc1 : 65536 * c / 175 ≤ 65535) :
    word_to_temperature_offset w = 175 * w / 65536 ∧
    temperature_offset_to_word c = (⌊65536 * c / 175⌋).toNat ∧
    temperature_offset_to_word (word_to_temperature_offset w) = w := by
  refine ⟨rfl, ?_, ?_⟩
  · rw [temperature_offset_to_word, u16_of_rat, if_neg (not_lt.mpr (by positivity))]
    refine min_eq_right ?_
    have hfl : ⌊65536 * c / 175⌋ ≤ 65535 := by
      have := Int.floor_le_floor hc1
      simpa using this
    omega
  · have harg : (65536 : ℚ) * word_to_temperature_offset w / 175 = (w : ℚ) := by
      rw [word_to_temperature_offset]
      field_simp
    rw [temperature_offset_to_word, harg, u16_of_rat_natCast (by omega)]

/-- Witness for C5's amended theorem at word `0x0912` and offset 5.4 °C
(the repository's own test vectors: 0x0912 → 6.200409 °C is consistent
with truncation, and 5.4 °C → 0x07e6). -/
theorem temperature_offset_conversions_witness :
    word_to_temperature_offset 0x0912 = 175 * 0x0912 / 65536 ∧
    temperature_offset_to_word (27 / 5) = (⌊(65536 * (27 / 5) / 175 : ℚ)⌋).toNat ∧
    temperature_offset_to_word (word_to_temperature_offset 0x0912) = 0x0912 ∧
    temperature_offset_to_word (27 / 5) = 0x07e6 :=
  ⟨(temperature_offset_conversions 0x0912 (by norm_num) (27 / 5) (by norm_num)
      (by norm_num)).1,
   (temperature_offset_conversions 0x0912 (by norm_num) (27 / 5) (by norm_num)
      (by norm_num)).2.1,
   (temperature_offset_conversions 0x0912 (by norm_num) (27 / 5) (by norm_num)
      (by norm_num)).2.2,
   by
    rw [(temperature_offset_conversions 0x0912 (by norm_num) (27 / 5) (by norm_num)
      (by norm_num)).2.1]
    norm_num
    rfl⟩

/-- Claim C9: `words_to_sample` maps the word triple to CO₂ = w0 ppm,
temperature = −45 + 175*w1/65536 °C, humidity = 100*w2/65536 %, and on
the vector (0x01f4, 0x6667, 0x5eb9) yields 500 ppm, ≈25.001602 °C and
≈37.001038 %. -/
theorem words_to_sample_formulas (w0 w1 w2 : Nat) :
    words_to_sample w0 w1 w2 =
      { co2 := (w0 : ℚ)
        temperature := -45 + 175 * w1 / 65536
        humidity := 100 * w2 / 65536 } ∧
    (words_to_sample 0x01f4 0x6667 0x5eb9).co2 = 500 ∧
    |(words_to_sample 0x01f4 0x6667 0x5eb9).temperature - 25.001602| < 1 / 1000000 ∧
    |(words_to_sample 0x01f4 0x6667 0x5eb9).humidity - 37.001038| < 1 / 1000000 := by
  refine ⟨rfl, by norm_num [words_to_sample], ?_, ?_⟩
  · rw [show (words_to_sample 0x01f4 0x6667 0x5eb9).temperature =
      word_to_temperature 0x6667 from rfl]
    rw [word_to_temperature]
    rw [abs_lt]
    norm_num
  · rw [show (words_to_sample 0x01f4 0x6667 0x5eb9).humidity =
      word_to_humidity 0x5eb9 from rfl]
    rw [word_to_humidity]
    rw [abs_lt]
    norm_num

/-! ## Command postprocessing — `src/blocking/commands.rs` -/

namespace GetDataReadyStatus

/-- `GetDataReadyStatus::postprocess`:
`let result = word & 0b0000_0111_1111_1111; result != 0`. -/
def postprocess (word : Nat) : Bool :=
  word &&& 0x07ff != 0

end GetDataReadyStatus

namespace PerformForcedRecalibration

/-- `PerformForcedRecalibration::postprocess`: `0xffff` means failure
(`None`); otherwise `word.wrapping_sub(0x8000) as i16`, converted to a
CO₂ ppm value (the `wrapped_word`/`signed_word` bindings are inlined;
`wrapping_sub` on `u16` is addition of `65536 - 0x8000` modulo
`65536`). -/
def postprocess (word : Nat) : Option ℚ :=
  if word = 0xffff then none
  else some (signed_word_to_co2 (i16_of_u16 ((word + 65536 - 0x8000) % 65536)))

end PerformForcedRecalibration

lemma i16_of_u16_wrapped {word : Nat} (h : word < 65536) :
    i16_of_u16 ((word + 65536 - 0x8000) % 65536) = (word : ℤ) - 32768 := by
  rw [i16_of_u16]
  rcases lt_or_le word 32768 with h1 | h1
  · have e : (word + 65536 - 0x8000) % 65536 = word + 32768 := by omega
    rw [e, if_neg (by omega)]
    omega
  · have e : (word + 65536 - 0x8000) % 65536 = word - 32768 := by omega
    rw [e, if_pos (by omega)]
    omega

/-- Claim C7: the forced-recalibration postprocessing returns `none` iff
the word is 0xFFFF, and otherwise the correction in ppm is the signed
16-bit value `(word - 0x8000) as i16`, i.e. `word − 32768`; in
particular word 0x7fce yields −50 ppm. -/
theorem perform_forced_recalibration_correction (word : Nat) (h : word < 65536) :
    (PerformForcedRecalibration.postprocess word = none ↔ word = 0xffff) ∧
    (word ≠ 0xffff →
      PerformForcedRecalibration.postprocess word = some ((word : ℚ) - 32768)) ∧
    PerformForcedRecalibration.postprocess 0x7fce = some (-50) := by
  have hmain : ∀ w : Nat, w < 65536 → w ≠ 0xffff →
      PerformForcedRecalibration.postprocess w = some ((w : ℚ) - 32768) := by
    intro w hw hne
    rw [PerformForcedRecalibration.postprocess, if_neg hne, signed_word_to_co2,
      i16_of_u16_wrapped hw]
    push_cast
    norm_num
  refine ⟨?_, hmain word h, ?_⟩
  · constructor
    · intro hnone
      by_contra hne
      rw [PerformForcedRecalibration.postprocess, if_neg hne] at hnone
      exact Option.some_ne_none _ hnone
    · intro he
      rw [PerformForcedRecalibration.postprocess, if_pos he]
  · rw [hmain 0x7fce (by norm_num) (by norm_num)]
    norm_num

/-- Witness for C7 at the datasheet vector 0x7fce and at 0xffff. -/
theorem perform_forced_recalibration_correction_witness :
    PerformForcedRecalibration.postprocess 0x7fce = some (-50) ∧
    (PerformForcedRecalibration.postprocess 0xffff = none ↔ (0xffff : Nat) = 0xffff) :=
  ⟨(perform_forced_recalibration_correction 0x7fce (by norm_num)).2.2,
   (perform_forced_recalibration_correction 0xffff (by norm_num)).1⟩

/-- Claim C8: data-ready is decided by the low 11 bits only:
`postprocess word = true ↔ word & 0x07FF ≠ 0`, the result depends only
on `word % 2048`, word 0x8000 reports not ready, and any word with a
nonzero low-11-bit reports ready. -/
theorem get_data_ready_low_bits_only (word : Nat) :
    (GetDataReadyStatus.postprocess word = true ↔ word &&& 0x07ff ≠ 0) ∧
    GetDataReadyStatus.postprocess word = GetDataReadyStatus.postprocess (word % 2048) ∧
    GetDataReadyStatus.postprocess 0x8000 = false ∧
    (word &&& 0x07ff ≠ 0 → GetDataReadyStatus.postprocess word = true) := by
  have hmask : ∀ n : Nat, n &&& 0x07ff = n % 2048 := by
    intro n
    have h := Nat.and_pow_two_sub_one_eq_mod n 11
    norm_num at h
    exact h
  refine ⟨?_, ?_, by decide, ?_⟩
  · rw [GetDataReadyStatus.postprocess]
    exact bne_iff_ne
  · rw [GetDataReadyStatus.postprocess, GetDataReadyStatus.postprocess, hmask, hmask,
      Nat.mod_mod_of_dvd word dvd_rfl]
  · intro h
    rw [GetDataReadyStatus.postprocess]
    exact bne_iff_ne.mpr h

/-- Witness for C8 at words 0x8000 (not ready) and 0x0001 (ready). -/
theorem get_data_ready_low_bits_only_witness :
    GetDataReadyStatus.postprocess 0x8000 = false ∧
    GetDataReadyStatus.postprocess 0x0001 = true :=
  ⟨(get_data_ready_low_bits_only 0x8000).2.2.1,
   (get_data_ready_low_bits_only 0x0001).2.2.2 (by decide)⟩

/-! ## Bus transactions — `src/async/command.rs` -/

/-- One bus interaction as it appears on the wire: a write of bytes to
an address, a delay in milliseconds, or a read of a given length from an
address. -/
inductive BusEvent
  | write (address : Nat) (bytes : List Nat)
  | delayMs (ms : Nat)
  | read (address : Nat) (len : Nat)
deriving DecidableEq

/-- The environment of a transaction: the behavior of the transport
capability.  `writeResult` yields `none` on success or the transport
error kind; `readResult` yields the response byte at each index, or an
error kind. -/
structure Bus where
  writeResult : Nat → List Nat → Option Nat
  readResult : Nat → Nat → Except Nat (Nat → Nat)

/-- `u16::to_be_bytes`: high byte then low byte. -/
def u16_to_be_bytes (w : Nat) : List Nat :=
  [(w >>> 8) % 256, w % 256]

/-- `SendCommandAndFetchResultSequence::execute` from
`src/async/command.rs`: write register + payload word + checksum
(5 bytes); wait the issuing command's max duration; read 3 bytes; verify
the checksum and return the word.  Alongside the result it returns the
trace of bus events that occurred (a failed write stops the sequence
before the delay and the read). -/
def sendCommandAndFetchResult (bus : Bus) (address : Nat) (delay : Nat)
    (register : Nat) (input : Nat) : List BusEvent × Except Error Nat :=
  let register_buffer := u16_to_be_bytes register
  let input_buffer := u16_to_be_bytes input
  let checksum := compute input_buffer
  let buffer := register_buffer ++ input_buffer ++ [checksum]
  match bus.writeResult address buffer with
  | some kind => ([BusEvent.write address buffer], Except.error (Error.I2c kind))
  | none =>
    match bus.readResult address 3 with
    | Except.error kind =>
      ([BusEvent.write address buffer, BusEvent.delayMs delay, BusEvent.read address 3],
        Except.error (Error.I2c kind))
    | Except.ok out =>
      ([BusEvent.write address buffer, BusEvent.delayMs delay, BusEvent.read address 3],
        buffer_to_word (out 0) (out 1) (out 2))

namespace PerformForcedRecalibration

/-- `PerformForcedRecalibration::register`. -/
def register : Nat := 0x362f

/-- `PerformForcedRecalibration::max_duration`:
`Duration::from_millis(800)`, in milliseconds. -/
def max_duration_ms : Nat := 800

/-- `PerformForcedRecalibration::preprocess`: `co2_to_word(co2)`. -/
def preprocess (co2 : ℚ) : Nat :=
  co2_to_word co2

/-- `Command::execute` specialized to `PerformForcedRecalibration`:
preprocess the input, run the command's sequence with its register and
max duration, postprocess the output on success. -/
def execute (bus : Bus) (address : Nat) (co2 : ℚ) :
    List BusEvent × Except Error (Option ℚ) :=
  let p := sendCommandAndFetchResult bus address max_duration_ms register (preprocess co2)
  (p.1, p.2.map postprocess)

end PerformForcedRecalibration

/-- Counterexample for claim C6: the declared maximum wait of
`PerformForcedRecalibration` in the code is 800 ms, not the claimed
400 ms. -/
theorem perform_forced_recalibration_duration_not_400ms :
    PerformForcedRecalibration.max_duration_ms = 800 ∧
    PerformForcedRecalibration.max_duration_ms ≠ 400 := by
  constructor <;> decide

lemma sendCommandAndFetchResult_trace (bus : Bus) (address delay register input : Nat)
    (hw : bus.writeResult address
      (u16_to_be_bytes register ++ u16_to_be_bytes input ++
        [compute (u16_to_be_bytes input)]) = none) :
    (sendCommandAndFetchResult bus address delay register input).1 =
      [BusEvent.write address
          (u16_to_be_bytes register ++ u16_to_be_bytes input ++
            [compute (u16_to_be_bytes input)]),
        BusEvent.delayMs delay,
        BusEvent.read address 3] := by
  cases hE : bus.readResult address 3 with
  | error kind =>
    simp only [sendCommandAndFetchResult]
    rw [hw, hE]
  | ok out =>
    simp only [sendCommandAndFetchResult]
    rw [hw, hE]

/-- Claim C6 as amended: `PerformForcedRecalibration` uses register
0x362f and the send-with-fetch sequence — after a successful write of
register + payload word + checksum (5 bytes) it delays by the declared
maximum duration and then reads 3 bytes — and that declared maximum
wait, used as the unconditional delay between the write and the read,
is 800 ms. -/
theorem perform_forced_recalibration_transaction (bus : Bus) (address : Nat) (co2 : ℚ)
    (hw : ∀ bytes, bus.writeResult address bytes = none) :
    PerformForcedRecalibration.register = 0x362f ∧
    PerformForcedRecalibration.max_duration_ms = 800 ∧
    (PerformForcedRecalibration.execute bus address co2).1 =
      [BusEvent.write address
          (u16_to_be_bytes PerformForcedRecalibration.register ++
            u16_to_be_bytes (co2_to_word co2) ++
            [compute (u16_to_be_bytes (co2_to_word co2))]),
        BusEvent.delayMs PerformForcedRecalibration.max_duration_ms,
        BusEvent.read address 3] ∧
    (u16_to_be_bytes PerformForcedRecalibration.register ++
        u16_to_be_bytes (co2_to_word co2) ++
        [compute (u16_to_be_bytes (co2_to_word co2))]).length = 5 := by
  refine ⟨rfl, rfl, ?_, by simp [u16_to_be_bytes]⟩
  exact sendCommandAndFetchResult_trace bus address
    PerformForcedRecalibration.max_duration_ms PerformForcedRecalibration.register
    (co2_to_word co2) (hw _)

/-- A transport that accepts every write and answers every read with
zero bytes, used to witness the transaction-shape theorems. -/
def alwaysOkBus : Bus where
  writeResult := fun _ _ => none
  readResult := fun _ _ => Except.ok (fun _ => 0)

/-- Witness for C6's amended theorem: the concrete transaction trace of
a forced recalibration at CO₂ = 480 ppm on `alwaysOkBus`. -/
theorem perform_forced_recalibration_transaction_witness :
    (PerformForcedRecalibration.execute alwaysOkBus 0x62 480).1 =
      [BusEvent.write 0x62
          (u16_to_be_bytes PerformForcedRecalibration.register ++
            u16_to_be_bytes (co2_to_word 480) ++
            [compute (u16_to_be_bytes (co2_to_word 480))]),
        BusEvent.delayMs PerformForcedRecalibration.max_duration_ms,
        BusEvent.read 0x62 3] :=
  (perform_forced_recalibration_transaction alwaysOkBus 0x62 480 (fun _ => rfl)).2.2.1

/-! ## Operating-mode state machine — `src/state.rs`, `src/async/sensor.rs` -/

/-- The two type-state markers of `src/state.rs` (`Idle`, `Measuring`). -/
inductive Mode
  | idle
  | measuring
deriving DecidableEq, Fintype

/-- The public methods of the sensor handle, one constructor per method
of `src/async/sensor.rs` (mirrored by `src/blocking/sensor.rs`). -/
inductive ApiCall
  | startPeriodicMeasurement
  | setTemperatureOffset
  | getTemperatureOffset
  | setSensorAltitude
  | getSensorAltitude
  | performForcedRecalibration
  | setAutomaticSelfCalibrationEnabled
  | getAutomaticSelfCalibrationEnabled
  | startLowPowerPeriodicMeasurement
  | persistSettings
  | getSerialNumber
  | performSelfTest
  | performFactoryReset
  | reinit
  | measureSingleShot
  | measureSingleShotRhtOnly
  | readMeasurement
  | getDataReadyStatus
  | release
  | stopPeriodicMeasurement
  | setAmbientPressure
deriving DecidableEq, Fintype

/-- On which handle states each method is defined, transcribed from the
three impl blocks of `src/async/sensor.rs`: methods of
`impl Scd4x<I2C, D, Idle>` exist only on an `Idle` handle, methods of
`impl Scd4x<I2C, D, Measuring>` only on a `Measuring` handle, and
methods of `impl Scd4x<I2C, D, S: State>` on both. -/
def definedAt (c : ApiCall) (m : Mode) : Bool :=
  match c with
  | ApiCall.startPeriodicMeasurement => m == Mode.idle
  | ApiCall.setTemperatureOffset => m == Mode.idle
  | ApiCall.getTemperatureOffset => m == Mode.idle
  | ApiCall.setSensorAltitude => m == Mode.idle
  | ApiCall.getSensorAltitude => m == Mode.idle
  | ApiCall.performForcedRecalibration => m == Mode.idle
  | ApiCall.setAutomaticSelfCalibrationEnabled => m == Mode.idle
  | ApiCall.getAutomaticSelfCalibrationEnabled => m == Mode.idle
  | ApiCall.startLowPowerPeriodicMeasurement => m == Mode.idle
  | ApiCall.persistSettings => m == Mode.idle
  | ApiCall.getSerialNumber => m == Mode.idle
  | ApiCall.performSelfTest => m == Mode.idle
  | ApiCall.performFactoryReset => m == Mode.idle
  | ApiCall.reinit => m == Mode.idle
  | ApiCall.measureSingleShot => m == Mode.idle
  | ApiCall.measureSingleShotRhtOnly => m == Mode.idle
  | ApiCall.readMeasurement => m == Mode.measuring
  | ApiCall.getDataReadyStatus => m == Mode.measuring
  | ApiCall.release => true
  | ApiCall.stopPeriodicMeasurement => true
  | ApiCall.setAmbientPressure => true

/-- The state of the handle after a successful call, transcribed from
the method signatures of `src/async/sensor.rs`: the four measurement
starters consume `self` and return a `Measuring` handle;
`stop_periodic_measurement` consumes `self` and returns an `Idle`
handle; `release` consumes `self` and returns no handle (`none`); every
other method takes `&mut self` and leaves the handle in its state. -/
def next (c : ApiCall) (m : Mode) : Option Mode :=
  match c with
  | ApiCall.startPeriodicMeasurement => some Mode.measuring
  | ApiCall.startLowPowerPeriodicMeasurement => some Mode.measuring
  | ApiCall.measureSingleShot => some Mode.measuring
  | ApiCall.measureSingleShotRhtOnly => some Mode.measuring
  | ApiCall.stopPeriodicMeasurement => some Mode.idle
  | ApiCall.release => none
  | _ => some m

/-- The §4.5 state machine as the specification words it, written from
the spec text only (which commands are callable in which state), to be
compared with `definedAt`. -/
def specDefined (c : ApiCall) (m : Mode) : Bool :=
  match c with
  | ApiCall.startPeriodicMeasurement => m == Mode.idle
  | ApiCall.startLowPowerPeriodicMeasurement => m == Mode.idle
  | ApiCall.measureSingleShot => m == Mode.idle
  | ApiCall.measureSingleShotRhtOnly => m == Mode.idle
  | ApiCall.setSensorAltitude => m == Mode.idle
  | ApiCall.getSensorAltitude => m == Mode.idle
  | ApiCall.setTemperatureOffset => m == Mode.idle
  | ApiCall.getTemperatureOffset => m == Mode.idle
  | ApiCall.setAutomaticSelfCalibrationEnabled => m == Mode.idle
  | ApiCall.getAutomaticSelfCalibrationEnabled => m == Mode.idle
  | ApiCall.performForcedRecalibration => m == Mode.idle
  | ApiCall.performSelfTest => m == Mode.idle
  | ApiCall.performFactoryReset => m == Mode.idle
  | ApiCall.persistSettings => m == Mode.idle
  | ApiCall.getSerialNumber => m == Mode.idle
  | ApiCall.reinit => m == Mode.idle
  | ApiCall.readMeasurement => m == Mode.measuring
  | ApiCall.getDataReadyStatus => m == Mode.measuring
  | ApiCall.stopPeriodicMeasurement => true
  | ApiCall.setAmbientPressure => true
  | ApiCall.release => true

/-- The spec's transition on success, written from the spec text only:
Idle → Measuring for the four starters, any state → Idle for stop,
consumption without successor for release, no mode change otherwise. -/
def specNext (c : ApiCall) (m : Mode) : Option Mode :=
  match c with
  | ApiCall.startPeriodicMeasurement => some Mode.measuring
  | ApiCall.startLowPowerPeriodicMeasurement => some Mode.measuring
  | ApiCall.measureSingleShot => some Mode.measuring
  | ApiCall.measureSingleShotRhtOnly => some Mode.measuring
  | ApiCall.stopPeriodicMeasurement => some Mode.idle
  | ApiCall.release => none
  | _ => some m

/-- Claim C1: the handle's operations realize exactly the Idle/Measuring
state machine of the spec — each method is defined on exactly the states
the spec allows, its successful result state is the spec's transition
target, and every defined transition is legal (stay put, Idle →
Measuring, or anything → Idle) — so every sequence of calls that
type-checks is a legal transition sequence. -/
theorem type_state_machine_matches_spec :
    (∀ c m, definedAt c m = specDefined c m) ∧
    (∀ c m, definedAt c m = true → next c m = specNext c m) ∧
    (∀ c m m', definedAt c m = true → next c m = some m' →
      m' = m ∨ (m = Mode.idle ∧ m' = Mode.measuring) ∨ m' = Mode.idle) := by
  refine ⟨by decide, by decide, by decide⟩

/-- Witness for C1 at a concrete call: `start_periodic_measurement` is
defined on an Idle handle and transitions it to Measuring, a legal
transition. -/
theorem type_state_machine_matches_spec_witness :
    next ApiCall.startPeriodicMeasurement Mode.idle = specNext ApiCall.startPeriodicMeasurement Mode.idle ∧
    (Mode.measuring = Mode.idle ∨ (Mode.idle = Mode.idle ∧ Mode.measuring = Mode.measuring) ∨
      Mode.measuring = Mode.idle) :=
  ⟨type_state_machine_matches_spec.2.1 ApiCall.startPeriodicMeasurement Mode.idle (by decide),
   type_state_machine_matches_spec.2.2 ApiCall.startPeriodicMeasurement Mode.idle Mode.measuring
     (by decide) (by decide)⟩

/-! ## Sensor handle construction and release — `src/async/sensor.rs` -/

/-- `DEFAULT_ADDRESS` from `src/constants.rs`. -/
def DEFAULT_ADDRESS : Nat := 0x62

/-- `Scd4x<I2c, Delay, State>` from `src/async/sensor.rs`: owns the
transport capability, the bus address and the delay capability; the
type-state marker is a phantom type, embedded as an index. -/
structure Scd4xHandle (I D : Type) (m : Mode) where
  i2c : I
  address : Nat
  delay : D

namespace Scd4xHandle

/-- `Scd4x::new_with_address`: builds the handle from its fields.  The
body performs no transport write, no transport read and no delay call,
so its bus-event trace is empty. -/
def new_with_address {I D : Type} (i2c : I) (address : Nat) (delay : D) :
    List BusEvent × Scd4xHandle I D Mode.idle :=
  ([], { i2c := i2c, address := address, delay := delay })

/-- `Scd4x::new`: `new_with_address` at `DEFAULT_ADDRESS`. -/
def new {I D : Type} (i2c : I) (delay : D) :
    List BusEvent × Scd4xHandle I D Mode.idle :=
  new_with_address i2c DEFAULT_ADDRESS delay

/-- `Scd4x::new_in_measuring_with_address`: same construction, Measuring
state. -/
def new_in_measuring_with_address {I D : Type} (i2c : I) (address : Nat) (delay : D) :
    List BusEvent × Scd4xHandle I D Mode.measuring :=
  ([], { i2c := i2c, address := address, delay := delay })

/-- `Scd4x::new_in_measuring`: `new_in_measuring_with_address` at
`DEFAULT_ADDRESS`. -/
def new_in_measuring {I D : Type} (i2c : I) (delay : D) :
    List BusEvent × Scd4xHandle I D Mode.measuring :=
  new_in_measuring_with_address i2c DEFAULT_ADDRESS delay

/-- `Scd4x::release`: `self.i2c` — returns the transport capability and
performs no bus interaction. -/
def release {I D : Type} {m : Mode} (h : Scd4xHandle I D m) : List BusEvent × I :=
  ([], h.i2c)

end Scd4xHandle

/-- Claim C10: constructing a handle (`new`, `new_with_address`,
`new_in_measuring`, `new_in_measuring_with_address`) and releasing it
perform no bus transaction at all — their traces are empty — and
`release` returns exactly the transport capability supplied at
construction, unchanged. -/
theorem construction_and_release_no_bus_traffic (I D : Type) (i2c : I)
    (address : Nat) (delay : D) :
    (Scd4xHandle.new_with_address i2c address delay).1 = ([] : List BusEvent) ∧
    (Scd4xHandle.new i2c delay).1 = ([] : List BusEvent) ∧
    (Scd4xHandle.new_in_measuring_with_address i2c address delay).1 = ([] : List BusEvent) ∧
    (Scd4xHandle.new_in_measuring i2c delay).1 = ([] : List BusEvent) ∧
    (∀ m (h : Scd4xHandle I D m),
      (Scd4xHandle.release h).1 = ([] : List BusEvent) ∧
      (Scd4xHandle.release h).2 = h.i2c) ∧
    (Scd4xHandle.release (Scd4xHandle.new_with_address i2c address delay).2).2 = i2c ∧
    (Scd4xHandle.release (Scd4xHandle.new_in_measuring_with_address i2c address delay).2).2 = i2c ∧
    (Scd4xHandle.new_with_address i2c address delay).2.i2c = i2c ∧
    (Scd4xHandle.new i2c delay).2.address = DEFAULT_ADDRESS :=
  ⟨rfl, rfl, rfl, rfl, fun _ _ => ⟨rfl, rfl⟩, rfl, rfl, rfl, rfl⟩

end Scd4x
